import Mathlib

/-!
Verification of the `ccc` changelog action sources.

Text is modelled as `List Char` (abbreviated `Str`).  The TypeScript
sources use the over-escaped literals `'\\n'` (the two-character sequence
backslash `n`) and the regexes `/^##\\s*(...)/i`, `/^[-*]\\s+/` (a literal
backslash followed by the letter `s`); the embedding reproduces those
byte-for-byte semantics.
-/

namespace Ccc

/-- Program strings are lists of characters. -/
abbrev Str := List Char

/-- JavaScript `String.prototype.trim` whitespace set (WhiteSpace and
LineTerminator code points). -/
def isJsWhitespace (c : Char) : Bool :=
  c = ' ' || c = '\t' || c = '\n' || c = '\r' || c = '\x0b' || c = '\x0c' ||
  c = '\u00A0' || c = '\uFEFF' || c = '\u2028' || c = '\u2029'

/-- JavaScript `trim()`: drop whitespace from both ends. -/
def jsTrim (s : Str) : Str :=
  (((s.dropWhile isJsWhitespace).reverse).dropWhile isJsWhitespace).reverse

/-- JavaScript `content.split('\\n')`: split on the literal two-character
sequence backslash `n` (the separator in the source is the string literal
`'\\n'`, not a newline). -/
def splitBN : Str → List Str
  | [] => [[]]
  | '\\' :: 'n' :: rest => [] :: splitBN rest
  | c :: rest =>
    match splitBN rest with
    | [] => [[c]]
    | l :: ls => (c :: l) :: ls

/-- The six canonical section categories. -/
inductive SectionType where
  | added
  | changed
  | deprecated
  | removed
  | fixed
  | security
deriving DecidableEq

/-- Case-insensitive (ASCII lowercase folding, as the regex `i` flag does
for these letters) test that `pat` is an initial segment of `s`. -/
def ciPrefOf : Str → Str → Bool
  | [], _ => true
  | _ :: _, [] => false
  | p :: ps, c :: cs => p.toLower == c.toLower && ciPrefOf ps cs

/-- The alternation `(Added|Changed|Deprecated|Removed|Fixed|Security)` of
the header regex, tried left to right at the current position. -/
def matchCatAt (s : Str) : Option SectionType :=
  if ciPrefOf ("Added".toList) s then some .added
  else if ciPrefOf ("Changed".toList) s then some .changed
  else if ciPrefOf ("Deprecated".toList) s then some .deprecated
  else if ciPrefOf ("Removed".toList) s then some .removed
  else if ciPrefOf ("Fixed".toList) s then some .fixed
  else if ciPrefOf ("Security".toList) s then some .security
  else none

/-- Greedy `s*` (case-insensitive, so `s` or `S`) followed by the category
alternation, with backtracking: consume as many `s` letters as possible,
then on failure retry the alternation at each earlier position. -/
def matchSStarCat : Str → Option SectionType
  | [] => none
  | c :: rest =>
    if c.toLower == 's' then
      match matchSStarCat rest with
      | some t => some t
      | none => matchCatAt (c :: rest)
    else matchCatAt (c :: rest)

/-- The header regex `/^##\\s*(Added|Changed|Deprecated|Removed|Fixed|Security)/i`
of `formatAsJson`: two hash marks, a literal backslash (the source writes
`\\s`, which in a regex literal is an escaped backslash followed by `s*`),
zero or more letters `s`, then a category name, all case-insensitive. -/
def headerMatch : Str → Option SectionType
  | '#' :: '#' :: '\\' :: rest => matchSStarCat rest
  | _ => none

/-- The bullet regex `/^[-*]\\s+/` of `formatAsJson`: `-` or `*`, a literal
backslash, then one or more letters `s` (this regex has no `i` flag). -/
def bulletMatch : Str → Bool
  | m :: '\\' :: 's' :: _ => m == '-' || m == '*'
  | _ => false

/-- Replacement `trimmed.replace(/^[-*]\\s+/, '')`: strip the marker, the literal
backslash and the maximal run of `s` letters. -/
def bulletStrip (s : Str) : Str :=
  match s with
  | m :: '\\' :: 's' :: rest =>
    if m == '-' || m == '*' then rest.dropWhile (fun c => c == 's') else s
  | _ => s

/-- A parsed changelog section: a category plus its bullet items. -/
structure ChangelogSection where
  type : SectionType
  items : List Str
deriving DecidableEq

/-- One iteration of the `for (const line of lines)` loop of
`formatAsJson`: the state is the open section (if any) and the sections
pushed so far. -/
def parseStep (st : Option ChangelogSection × List ChangelogSection)
    (line : Str) : Option ChangelogSection × List ChangelogSection :=
  let trimmed := jsTrim line
  match headerMatch trimmed with
  | some ty => (some ⟨ty, []⟩, st.2 ++ st.1.toList)
  | none =>
    match st.1 with
    | some cur =>
      if bulletMatch trimmed then
        (some ⟨cur.type, cur.items ++ [bulletStrip trimmed]⟩, st.2)
      else st
    | none => st

/-- The section-extraction loop of `formatAsJson`: split on the literal
`\n` sequence, fold the line handler, and push the still-open section at
end of input. -/
def parseSections (content : Str) : List ChangelogSection :=
  let p := (splitBN content).foldl parseStep (none, [])
  p.2 ++ p.1.toList

/-- A commit record of `git-analyzer.ts`. -/
structure GitCommit where
  hash : Str
  date : Str
  message : Str
  author : Str
  email : Str
deriving DecidableEq

/-- A per-file change record of `git-analyzer.ts`. -/
structure GitChange where
  file : Str
  insertions : Nat
  deletions : Nat
  diff : Str
deriving DecidableEq

/-- The `AnalyzedChanges` result of `git-analyzer.ts` (the spec's
ChangeSet). -/
structure AnalyzedChanges where
  commits : List GitCommit
  files : List GitChange
  totalInsertions : Nat
  totalDeletions : Nat
  fromTag : Str
  toRef : Str
deriving DecidableEq

/-- One entry of the `git.diffSummary` result consulted by
`getChangesBetween`; `insertions`/`deletions` are absent for binary files,
which the source handles with `|| 0`. -/
structure DiffSummaryEntry where
  file : Str
  insertions : Option Nat
  deletions : Option Nat
deriving DecidableEq

/-- The body of the per-file loop of `GitAnalyzer.getChangesBetween`:
`diffOf` models `git.diff([range, '--', file])`, whose failure is caught.
On success the file is pushed and the totals are increased; in the catch
branch the file is pushed with an empty diff and the totals are left
unchanged. -/
def changesStep (diffOf : Str → Except Str Str)
    (acc : List GitChange × Nat × Nat) (f : DiffSummaryEntry) :
    List GitChange × Nat × Nat :=
  let ins := f.insertions.getD 0
  let del := f.deletions.getD 0
  match diffOf f.file with
  | .ok d => (acc.1 ++ [⟨f.file, ins, del, d⟩], acc.2.1 + ins, acc.2.2 + del)
  | .error _ => (acc.1 ++ [⟨f.file, ins, del, []⟩], acc.2.1, acc.2.2)

/-- Embedding of `GitAnalyzer.getChangesBetween`, given the commit log and diff summary
that git returned: builds the file list and the running totals, then the
`AnalyzedChanges` record. -/
def getChangesBetween (commits : List GitCommit)
    (summaryFiles : List DiffSummaryEntry) (diffOf : Str → Except Str Str)
    (fromTag toRef : Str) : AnalyzedChanges :=
  let r := summaryFiles.foldl (changesStep diffOf) ([], 0, 0)
  ⟨commits, r.1, r.2.1, r.2.2, fromTag, toRef⟩

/-- Lowercased name of a category, as `sectionMatch[1].toLowerCase()`
stores it. -/
def sectionTypeName : SectionType → Str
  | .added => "added".toList
  | .changed => "changed".toList
  | .deprecated => "deprecated".toList
  | .removed => "removed".toList
  | .fixed => "fixed".toList
  | .security => "security".toList

/-- Lowercase hexadecimal digit, for control-character escapes. -/
def hexDigit (n : Nat) : Char :=
  if n < 10 then Char.ofNat (48 + n) else Char.ofNat (87 + n)

/-- Escaping of a single character as `JSON.stringify` performs it. -/
def jsonEscChar (c : Char) : Str :=
  if c = '"' then ['\\', '"']
  else if c = '\\' then ['\\', '\\']
  else if c = '\x08' then ['\\', 'b']
  else if c = '\t' then ['\\', 't']
  else if c = '\n' then ['\\', 'n']
  else if c = '\x0c' then ['\\', 'f']
  else if c = '\r' then ['\\', 'r']
  else if c.toNat < 32 then
    ['\\', 'u', '0', '0', hexDigit (c.toNat / 16), hexDigit (c.toNat % 16)]
  else [c]

/-- A JSON string literal for `s`. -/
def jsonQuote (s : Str) : Str :=
  '"' :: ((s.map jsonEscChar).flatten ++ ['"'])

/-- Concatenation with a separator between consecutive elements
(`Array.prototype.join`). -/
def joinSep (sep : Str) : List Str → Str
  | [] => []
  | [x] => x
  | x :: y :: rest => x ++ sep ++ joinSep sep (y :: rest)

/-- Decimal rendering of a natural number, as `Number.prototype.toString`
renders the integer counts. -/
def decimalStr (n : Nat) : Str := (Nat.repr n).toList

/-- The `items` array of a section as `JSON.stringify(_, null, 2)` prints
it at its nesting depth. -/
def jsonItemsBlock (items : List Str) : Str :=
  match items with
  | [] => "[]".toList
  | _ =>
    "[\n".toList ++
      joinSep (",\n".toList) (items.map (fun it => "        ".toList ++ jsonQuote it)) ++
      "\n      ]".toList

/-- A section object as `JSON.stringify(_, null, 2)` prints it inside the
`sections` array. -/
def jsonSectionBlock (s : ChangelogSection) : Str :=
  "    \x7b\n      \"type\": ".toList ++ jsonQuote (sectionTypeName s.type) ++
  ",\n      \"items\": ".toList ++ jsonItemsBlock s.items ++
  "\n    \x7d".toList

/-- The `sections` array as `JSON.stringify(_, null, 2)` prints it. -/
def jsonSectionsBlock (sections : List ChangelogSection) : Str :=
  match sections with
  | [] => "[]".toList
  | _ =>
    "[\n".toList ++ joinSep (",\n".toList) (sections.map jsonSectionBlock) ++
      "\n  ]".toList

/-- The `summary` field: `${commits.length} commits, ${files.length} files
changed`. -/
def summaryStr (changes : AnalyzedChanges) : Str :=
  decimalStr changes.commits.length ++ " commits, ".toList ++
    decimalStr changes.files.length ++ " files changed".toList

/-- Serialization `JSON.stringify(changelog, null, 2)` for the `GeneratedChangelog`
object literal `\x7b date, sections, summary \x7d` built in the try branch of
`formatAsJson`. -/
def changelogJson (today : Str) (sections : List ChangelogSection)
    (summary : Str) : Str :=
  "\x7b\n  \"date\": ".toList ++ jsonQuote today ++
  ",\n  \"sections\": ".toList ++ jsonSectionsBlock sections ++
  ",\n  \"summary\": ".toList ++ jsonQuote summary ++
  "\n\x7d".toList

/-- Embedding of `ChangelogGenerator.formatAsJson`: parse sections out of the content
and serialize the changelog record.  (The catch branch of the source is
unreachable: no statement of the try branch throws.) -/
def formatAsJson (today content : Str) (changes : AnalyzedChanges) : Str :=
  changelogJson today (parseSections content) (summaryStr changes)

/-- The serialized fallback document of the catch branch of
`formatAsJson`: `\x7b date, content, metadata \x7d` with the numeric metadata. -/
def fallbackJson (today content : Str) (changes : AnalyzedChanges) : Str :=
  "\x7b\n  \"date\": ".toList ++ jsonQuote today ++
  ",\n  \"content\": ".toList ++ jsonQuote content ++
  ",\n  \"metadata\": \x7b\n    \"commits\": ".toList ++ decimalStr changes.commits.length ++
  ",\n    \"files\": ".toList ++ decimalStr changes.files.length ++
  ",\n    \"insertions\": ".toList ++ decimalStr changes.totalInsertions ++
  ",\n    \"deletions\": ".toList ++ decimalStr changes.totalDeletions ++
  ",\n    \"fromTag\": ".toList ++ jsonQuote changes.fromTag ++
  ",\n    \"toRef\": ".toList ++ jsonQuote changes.toRef ++
  "\n  \x7d\n\x7d".toList

/-- Occurrence of `needle` somewhere inside the second argument (JavaScript
`String.prototype.includes`). -/
def containsSub (needle : Str) : Str → Bool
  | [] => needle.isEmpty
  | c :: rest => needle.isPrefixOf (c :: rest) || containsSub needle rest

/-- Embedding of `ChangelogGenerator.formatAsMarkdown`: trim; when neither `## ` nor
`### ` occurs anywhere in the trimmed text, prepend the Unreleased header
(the separator the source produces is the literal four-character sequence
backslash `n` backslash `n`, written `\\n\\n` in the template literal). -/
def formatAsMarkdown (today content : Str) : Str :=
  let formatted := jsTrim content
  if !containsSub ("## ".toList) formatted && !containsSub ("### ".toList) formatted then
    "## [Unreleased] - ".toList ++ today ++ "\\n\\n".toList ++ formatted
  else formatted

/-- The commit summary of `buildPrompt`, joined with the literal
two-character sequence backslash `n` (the source joins with `'\\n'`). -/
def commitSummaryStr (commits : List GitCommit) : Str :=
  joinSep ("\\n".toList)
    (commits.map (fun c =>
      "- ".toList ++ c.hash.take 8 ++ ": ".toList ++ c.message ++
        " (".toList ++ c.author ++ ")".toList))

/-- The file-changes summary of `buildPrompt`. -/
def fileChangesStr (files : List GitChange) : Str :=
  joinSep ("\\n".toList)
    (files.map (fun f =>
      "- ".toList ++ f.file ++ ": +".toList ++ decimalStr f.insertions ++
        " -".toList ++ decimalStr f.deletions))

/-- The files sampled for diff context: those with more than 5 changed
lines, at most the first 5 of them. -/
def significantFiles (files : List GitChange) : List GitChange :=
  (files.filter (fun f => 5 < f.insertions + f.deletions)).take 5

/-- One fenced diff sample: at most the first 1000 characters of the
file's diff. -/
def diffSample (f : GitChange) : Str :=
  "### ".toList ++ f.file ++ "\\n```diff\\n".toList ++ f.diff.take 1000 ++
    "\\n```".toList

/-- The `significantDiffs` string of `buildPrompt`. -/
def significantDiffsStr (files : List GitChange) : Str :=
  joinSep ("\\n\\n".toList) ((significantFiles files).map diffSample)

/-- The `$\x7bsignificantDiffs ? ... : ''\x7d` slot of the prompt template: the
Sample Code Changes section, or nothing when the sample string is empty
(JavaScript falsiness of the empty string). -/
def sampleSection (files : List GitChange) : Str :=
  if (significantDiffsStr files).isEmpty then []
  else "## Sample Code Changes\\n".toList ++ significantDiffsStr files

/-- Embedding of `ChangelogGenerator.buildPrompt`: the full prompt template. -/
def buildPrompt (changes : AnalyzedChanges) : Str :=
  "You are a technical writer creating a changelog for a software project. Analyze the following git changes and generate a well-structured changelog entry.\n\n".toList ++
  "## Change Summary\n- **From:** ".toList ++ changes.fromTag ++
  "\n- **To:** ".toList ++ changes.toRef ++
  "\n- **Commits:** ".toList ++ decimalStr changes.commits.length ++
  "\n- **Files changed:** ".toList ++ decimalStr changes.files.length ++
  "\n- **Total changes:** +".toList ++ decimalStr changes.totalInsertions ++
  " -".toList ++ decimalStr changes.totalDeletions ++
  "\n\n## Commits\n".toList ++ commitSummaryStr changes.commits ++
  "\n\n## File Changes\n".toList ++ fileChangesStr changes.files ++
  "\n\n".toList ++ sampleSection changes.files ++
  "\n\n## Instructions\nGenerate a changelog entry following these guidelines:\n\n".toList ++
  "1. **Categorize changes** using these standard categories:\n   - **Added**: New features\n   - **Changed**: Changes in existing functionality\n   - **Deprecated**: Soon-to-be removed features\n   - **Removed**: Removed features\n   - **Fixed**: Bug fixes\n   - **Security**: Security improvements\n\n".toList ++
  "2. **Write clear, user-focused descriptions** that explain:\n   - What changed from a user\x27s perspective\n   - Why it matters\n   - Any breaking changes or migration notes\n\n".toList ++
  "3. **Use consistent formatting**:\n   - Each item should be a concise bullet point\n   - Start with an action verb when possible\n   - Reference issue/PR numbers if visible in commit messages\n\n".toList ++
  "4. **Focus on semantic meaning** rather than technical implementation details\n\n".toList ++
  "5. **Group related changes** together logically\n\n".toList ++
  "Please generate a changelog entry in markdown format with appropriate sections and bullet points. Do not include version numbers or dates - I\x27ll add those separately.\n\n".toList ++
  "Return only the changelog content without any explanatory text or metadata.".toList

/-- The configuration record of `claude-client.ts`; absent optional string
inputs are the empty string (exactly the values JavaScript treats as
falsy here). -/
structure ClaudeClientConfig where
  anthropicApiKey : Str
  useBedrock : Bool
  useVertex : Bool
  bedrockRegion : Str
  vertexProjectId : Str
  vertexRegion : Str
  model : Str
deriving DecidableEq

/-- The three client classes a successful `createClaudeClient` can
construct, with the constructor arguments they receive. -/
inductive ClientVariant where
  | anthropic (apiKey model : Str)
  | bedrock (region model : Str)
  | vertex (projectId region model : Str)
deriving DecidableEq

/-- JavaScript `a || b` on strings: `b` when `a` is empty. -/
def jsOr (a b : Str) : Str := if a.isEmpty then b else a

/-- Embedding of `createClaudeClient`: Bedrock takes precedence, then Vertex (which
requires a project id), then the Anthropic API (which requires a key). -/
def createClaudeClient (config : ClaudeClientConfig) : Except Str ClientVariant :=
  if config.useBedrock then
    .ok (.bedrock (jsOr config.bedrockRegion ("us-east-1".toList)) config.model)
  else if config.useVertex then
    if config.vertexProjectId.isEmpty then
      .error ("Vertex AI project ID is required when using Vertex AI".toList)
    else
      .ok (.vertex config.vertexProjectId
        (jsOr config.vertexRegion ("us-central1".toList)) config.model)
  else if config.anthropicApiKey.isEmpty then
    .error ("Anthropic API key is required when not using Bedrock or Vertex AI".toList)
  else
    .ok (.anthropic config.anthropicApiKey config.model)

/-- The raw action inputs read at the top of `run` in `index.ts`:
`core.getInput` values (empty string when not provided) and the two
environment fallbacks. -/
structure Inputs where
  githubTokenInput : Str
  envGithubToken : Str
  anthropicApiKeyInput : Str
  envAnthropicApiKey : Str
  fromTag : Str
  toRef : Str
  outputFile : Str
  format : Str
  model : Str
  useBedrock : Str
  useVertex : Str
  bedrockRegion : Str
  vertexProjectId : Str
  vertexRegion : Str
deriving DecidableEq

/-- Resolution `core.getInput('github_token') || process.env.GITHUB_TOKEN`. -/
def resolvedGithubToken (inp : Inputs) : Str :=
  jsOr inp.githubTokenInput inp.envGithubToken

/-- Resolution `fromTag || await gitAnalyzer.getLatestTag()`. -/
def resolvedFromTag (inp : Inputs) (latestTag : Option Str) : Option Str :=
  if inp.fromTag.isEmpty then latestTag else some inp.fromTag

/-- Resolution `core.getInput('to_ref') || 'HEAD'`. -/
def resolvedToRef (inp : Inputs) : Str := jsOr inp.toRef ("HEAD".toList)

/-- Resolution `core.getInput('output_file') || 'CHANGELOG.md'`. -/
def resolvedOutputFile (inp : Inputs) : Str :=
  jsOr inp.outputFile ("CHANGELOG.md".toList)

/-- Resolution `core.getInput('format') || 'markdown'`. -/
def resolvedFormat (inp : Inputs) : Str := jsOr inp.format ("markdown".toList)

/-- The `ClaudeClientConfig` object literal `run` passes to
`createClaudeClient` (boolean inputs are the comparison `=== 'true'`,
defaults applied as in the source). -/
def runConfig (inp : Inputs) : ClaudeClientConfig :=
  { anthropicApiKey := jsOr inp.anthropicApiKeyInput inp.envAnthropicApiKey
    useBedrock := inp.useBedrock == "true".toList
    useVertex := inp.useVertex == "true".toList
    bedrockRegion := jsOr inp.bedrockRegion ("us-east-1".toList)
    vertexProjectId := inp.vertexProjectId
    vertexRegion := jsOr inp.vertexRegion ("us-central1".toList)
    model := jsOr inp.model ("claude-3-5-sonnet-20241022".toList) }

/-- Observable outcome of one `run` invocation: the `core.setOutput`
pairs in order, the file writes, how many prompts were compiled by
`buildPrompt`, how many backend (`generateResponse`) calls were made, and
the `core.setFailed` message if any. -/
structure RunResult where
  outputs : List (Str × Str)
  fileWrites : List (Str × Str)
  promptsCompiled : Nat
  backendCalls : Nat
  failed : Option Str
deriving DecidableEq

/-- Outcome of the catch-all error handler of `run`: no outputs, no
writes, a `core.setFailed` with the prefixed message. -/
def failResult (pre : Nat × Nat) (msg : Str) : RunResult :=
  ⟨[], [], pre.1, pre.2, some ("Action failed: ".toList ++ msg)⟩

/-- The `run` function of `index.ts`.  External effects are parameters:
`latestTag` models `getLatestTag`, `changesOf` models `getChangesBetween`
on the resolved range, `respond` models the network call of the
constructed client's `generateResponse`, and `today` is the date used by
the formatters. -/
def run (inp : Inputs) (latestTag : Option Str)
    (changesOf : Str → Str → Except Str AnalyzedChanges)
    (respond : Str → Except Str Str) (today : Str) : RunResult :=
  if (resolvedGithubToken inp).isEmpty then
    failResult (0, 0) ("GitHub token is required".toList)
  else
    match resolvedFromTag inp latestTag with
    | none => failResult (0, 0) ("No from tag specified and no tags found in repository".toList)
    | some t =>
      if t.isEmpty then
        failResult (0, 0) ("No from tag specified and no tags found in repository".toList)
      else
        match changesOf t (resolvedToRef inp) with
        | .error e => failResult (0, 0) e
        | .ok changes =>
          if changes.commits.isEmpty then
            ⟨[("changelog".toList, "No changes found".toList),
              ("changelog_file".toList, []),
              ("changes_count".toList, "0".toList)], [], 0, 0, none⟩
          else
            match createClaudeClient (runConfig inp) with
            | .error msg => failResult (0, 0) msg
            | .ok _ =>
              match respond (buildPrompt changes) with
              | .error e => failResult (1, 1) e
              | .ok content =>
                let changelog :=
                  if resolvedFormat inp == "json".toList then
                    formatAsJson today content changes
                  else formatAsMarkdown today content
                let writes :=
                  if !(resolvedOutputFile inp).isEmpty &&
                      !(resolvedOutputFile inp == "stdout".toList) then
                    [(resolvedOutputFile inp, changelog)]
                  else []
                ⟨[("changelog".toList, changelog),
                  ("changelog_file".toList, resolvedOutputFile inp),
                  ("changes_count".toList, decimalStr changes.commits.length)],
                 writes, 1, 1, none⟩

/-- A two-commit, three-file change set used to exercise the structured
formatter. -/
def ch2 : AnalyzedChanges :=
  ⟨[⟨"abc123def".toList, "2026-01-02".toList, "feat: add x".toList, "Alice".toList, "a@example.com".toList⟩,
    ⟨"456deadbe".toList, "2026-01-03".toList, "fix: y".toList, "Bob".toList, "b@example.com".toList⟩],
   [⟨"a.ts".toList, 4, 2, "+a".toList⟩,
    ⟨"b.ts".toList, 3, 1, "+b".toList⟩,
    ⟨"c.ts".toList, 2, 0, "+c".toList⟩],
   9, 3, "v1".toList, "HEAD".toList⟩

/-- Inputs with a token and an explicit from tag, everything else left at
its default. -/
def inp3 : Inputs :=
  ⟨"tok".toList, [], [], [], "v1".toList, [], [], [], [], [], [], [], [], []⟩

/-- An empty change set (zero commits). -/
def ch3 : AnalyzedChanges := ⟨[], [], 0, 0, "v1".toList, "HEAD".toList⟩

/-- Inputs selecting Vertex without a project id. -/
def inp4 : Inputs :=
  ⟨"tok".toList, [], [], [], "v1".toList, [], [], [], [], [],
   "true".toList, [], [], []⟩

/-- A change set whose only file is below the diff-sampling threshold. -/
def ch7 : AnalyzedChanges :=
  ⟨[⟨"abc123def".toList, "2026-01-02".toList, "chore: z".toList, "Alice".toList, "a@example.com".toList⟩],
   [⟨"a.ts".toList, 1, 2, "+tiny".toList⟩], 1, 2, "v1".toList, "HEAD".toList⟩

/-- A configuration with both managed proxies selected. -/
def cfg8 : ClaudeClientConfig :=
  ⟨"key".toList, true, true, [], "proj".toList, [], "model-m".toList⟩

/-- Inputs for a full successful run with one commit. -/
def inp9 : Inputs :=
  ⟨"tok".toList, [], "key".toList, [], "v1".toList, [], [], [], [], [],
   [], [], [], []⟩

/-- A one-commit change set. -/
def ch9 : AnalyzedChanges :=
  ⟨[⟨"abcdef1234".toList, "2026-01-01".toList, "fix: bug".toList, "Alice".toList, "a@example.com".toList⟩],
   [], 0, 0, "v1".toList, "HEAD".toList⟩

/-- One successful loop iteration of `getChangesBetween` preserves the
totals-equal-sums invariant. -/
theorem changesStep_preserves_sums (diffOf : Str → Except Str Str)
    (acc : List GitChange × Nat × Nat) (f : DiffSummaryEntry)
    (hok : ∃ d, diffOf f.file = .ok d)
    (h1 : acc.2.1 = (acc.1.map GitChange.insertions).sum)
    (h2 : acc.2.2 = (acc.1.map GitChange.deletions).sum) :
    (changesStep diffOf acc f).2.1 =
      ((changesStep diffOf acc f).1.map GitChange.insertions).sum ∧
    (changesStep diffOf acc f).2.2 =
      ((changesStep diffOf acc f).1.map GitChange.deletions).sum := by
  obtain ⟨d, hd⟩ := hok
  simp [changesStep, hd, h1, h2]

/-- When every per-file diff retrieval succeeds, `getChangesBetween`
maintains the invariant that the totals are the sums over the file
entries. -/
theorem getChangesBetween_sums_when_diffs_ok (commits : List GitCommit)
    (summaryFiles : List DiffSummaryEntry) (diffOf : Str → Except Str Str)
    (fromTag toRef : Str)
    (hok : ∀ f ∈ summaryFiles, ∃ d, diffOf f.file = .ok d) :
    (getChangesBetween commits summaryFiles diffOf fromTag toRef).totalInsertions =
      ((getChangesBetween commits summaryFiles diffOf fromTag toRef).files.map
        GitChange.insertions).sum ∧
    (getChangesBetween commits summaryFiles diffOf fromTag toRef).totalDeletions =
      ((getChangesBetween commits summaryFiles diffOf fromTag toRef).files.map
        GitChange.deletions).sum := by
  have main : ∀ (fs : List DiffSummaryEntry) (acc : List GitChange × Nat × Nat),
      (∀ f ∈ fs, ∃ d, diffOf f.file = .ok d) →
      acc.2.1 = (acc.1.map GitChange.insertions).sum →
      acc.2.2 = (acc.1.map GitChange.deletions).sum →
      (fs.foldl (changesStep diffOf) acc).2.1 =
        ((fs.foldl (changesStep diffOf) acc).1.map GitChange.insertions).sum ∧
      (fs.foldl (changesStep diffOf) acc).2.2 =
        ((fs.foldl (changesStep diffOf) acc).1.map GitChange.deletions).sum := by
    intro fs
    induction fs with
    | nil => intro acc _ h1 h2; exact ⟨h1, h2⟩
    | cons f fs ih =>
      intro acc hall h1 h2
      have hstep := changesStep_preserves_sums diffOf acc f
        (hall f (List.mem_cons_self f fs)) h1 h2
      exact ih (changesStep diffOf acc f)
        (fun g hg => hall g (List.mem_cons_of_mem f hg)) hstep.1 hstep.2
  exact main summaryFiles ([], 0, 0) hok rfl rfl

/-- Claim C1 (code bug): when the diff text of a file cannot be
retrieved, the catch branch of `getChangesBetween` appends the file with
its insertion and deletion counts but does not add them to the totals, so
the returned change set violates the stated invariant: here
`totalInsertions` is `0` while the file entries sum to `3` insertions,
and `totalDeletions` is `0` while the entries sum to `1`. -/
theorem C1_totals_diverge_on_failed_diff :
    (getChangesBetween [] [⟨"a.ts".toList, some 3, some 1⟩]
        (fun _ => .error ("boom".toList)) ("v1".toList) ("HEAD".toList)).totalInsertions = 0 ∧
    ((getChangesBetween [] [⟨"a.ts".toList, some 3, some 1⟩]
        (fun _ => .error ("boom".toList)) ("v1".toList) ("HEAD".toList)).files.map
      GitChange.insertions).sum = 3 ∧
    (getChangesBetween [] [⟨"a.ts".toList, some 3, some 1⟩]
        (fun _ => .error ("boom".toList)) ("v1".toList) ("HEAD".toList)).totalDeletions = 0 ∧
    ((getChangesBetween [] [⟨"a.ts".toList, some 3, some 1⟩]
        (fun _ => .error ("boom".toList)) ("v1".toList) ("HEAD".toList)).files.map
      GitChange.deletions).sum = 1 := by
  decide

/-- If no line matches the header pattern, the section-extraction loop
never opens a section: bullet lines (and everything else) are dropped. -/
theorem foldl_parseStep_no_header (lines : List Str)
    (secs : List ChangelogSection)
    (h : ∀ l ∈ lines, headerMatch (jsTrim l) = none) :
    lines.foldl parseStep (none, secs) = (none, secs) := by
  induction lines with
  | nil => rfl
  | cons l ls ih =>
    have hl : headerMatch (jsTrim l) = none := h l (List.mem_cons_self l ls)
    have hstep : parseStep (none, secs) l = (none, secs) := by
      simp [parseStep, hl]
    rw [List.foldl_cons, hstep]
    exact ih fun x hx => h x (List.mem_cons_of_mem l hx)

/-- Claim C2, amended: `formatAsJson` is a total function (its catch
branch is unreachable, since nothing in the try branch throws), and on
text none of whose lines matches the header pattern it returns the
structured serialization with an empty `sections` array and the
commit/file counts in `summary` — not the raw-text fallback document. -/
theorem C2_amended_structured_total (today content : Str)
    (changes : AnalyzedChanges)
    (h : ∀ l ∈ splitBN content, headerMatch (jsTrim l) = none) :
    formatAsJson today content changes =
      changelogJson today [] (summaryStr changes) := by
  have hsec : parseSections content = [] := by
    unfold parseSections
    rw [foldl_parseStep_no_header (splitBN content) [] h]
    rfl
  unfold formatAsJson
  rw [hsec]

/-- Witness for the amended C2 at a concrete garbled text. -/
theorem C2_amended_witness :
    (∀ l ∈ splitBN ("@@garbled** ??".toList),
        headerMatch (jsTrim l) = none) ∧
    formatAsJson ("2026-10-12".toList) ("@@garbled** ??".toList) ch2 =
      changelogJson ("2026-10-12".toList) [] (summaryStr ch2) :=
  ⟨by decide,
   C2_amended_structured_total ("2026-10-12".toList) ("@@garbled** ??".toList)
     ch2 (by decide)⟩

/-- Claim C2, counterexample: on garbled text the structured formatter
does not return the fallback document and its output does not contain the
raw text verbatim. -/
theorem C2_counterexample :
    containsSub ("@@garbled** ??".toList)
      (formatAsJson ("2026-10-12".toList) ("@@garbled** ??".toList) ch2) = false ∧
    formatAsJson ("2026-10-12".toList) ("@@garbled** ??".toList) ch2 ≠
      fallbackJson ("2026-10-12".toList) ("@@garbled** ??".toList) ch2 := by
  decide

/-- Claim C3: when the extracted change set has zero commits, `run`
terminates successfully with exactly the outputs
`changelog = "No changes found"`, `changelog_file = ""`,
`changes_count = "0"`, no file write, no prompt compilation and no
backend call. -/
theorem C3_zero_commits_early_return (inp : Inputs) (latestTag : Option Str)
    (changesOf : Str → Str → Except Str AnalyzedChanges)
    (respond : Str → Except Str Str) (today : Str) (t : Str)
    (changes : AnalyzedChanges)
    (htok : (resolvedGithubToken inp).isEmpty = false)
    (htag : resolvedFromTag inp latestTag = some t)
    (ht : t.isEmpty = false)
    (hch : changesOf t (resolvedToRef inp) = .ok changes)
    (hzero : changes.commits.isEmpty = true) :
    run inp latestTag changesOf respond today =
      ⟨[("changelog".toList, "No changes found".toList),
        ("changelog_file".toList, []),
        ("changes_count".toList, "0".toList)], [], 0, 0, none⟩ := by
  simp [run, htok, htag, ht, hch, hzero]

/-- Witness for C3: a concrete zero-commit run. -/
theorem C3_witness :
    ch3.commits.isEmpty = true ∧
    run inp3 none (fun _ _ => .ok ch3) (fun _ => .error ("no call".toList))
        ("2026-10-12".toList) =
      ⟨[("changelog".toList, "No changes found".toList),
        ("changelog_file".toList, []),
        ("changes_count".toList, "0".toList)], [], 0, 0, none⟩ :=
  ⟨rfl,
   C3_zero_commits_early_return inp3 none (fun _ _ => .ok ch3)
     (fun _ => .error ("no call".toList)) ("2026-10-12".toList)
     ("v1".toList) ch3 (by decide) (by decide) (by decide) rfl rfl⟩

/-- Claim C4: with the Vertex variant selected (and Bedrock not selected)
and no project identifier, client construction fails with the
configuration error, and such a run never compiles a prompt and never
makes a backend call. -/
theorem C4_vertex_missing_project (inp : Inputs) (latestTag : Option Str)
    (changesOf : Str → Str → Except Str AnalyzedChanges)
    (respond : Str → Except Str Str) (today : Str)
    (hb : (inp.useBedrock == "true".toList) = false)
    (hv : (inp.useVertex == "true".toList) = true)
    (hp : inp.vertexProjectId.isEmpty = true) :
    createClaudeClient (runConfig inp) =
      .error ("Vertex AI project ID is required when using Vertex AI".toList) ∧
    (run inp latestTag changesOf respond today).promptsCompiled = 0 ∧
    (run inp latestTag changesOf respond today).backendCalls = 0 := by
  have hb' : ¬(inp.useBedrock = ['t', 'r', 'u', 'e']) := by simpa using hb
  have hv' : inp.useVertex = ['t', 'r', 'u', 'e'] := by simpa using hv
  have hcc : createClaudeClient (runConfig inp) =
      .error ("Vertex AI project ID is required when using Vertex AI".toList) := by
    simp [createClaudeClient, runConfig, hb', hv', hp]
  refine ⟨hcc, ?_⟩
  unfold run
  split
  · exact ⟨rfl, rfl⟩
  · split
    · exact ⟨rfl, rfl⟩
    · split
      · exact ⟨rfl, rfl⟩
      · split
        · exact ⟨rfl, rfl⟩
        · split
          · exact ⟨rfl, rfl⟩
          · rw [hcc]
            exact ⟨rfl, rfl⟩

/-- Witness for C4: concrete inputs selecting Vertex with an empty
project id. -/
theorem C4_witness :
    (inp4.useBedrock == "true".toList) = false ∧
    (inp4.useVertex == "true".toList) = true ∧
    inp4.vertexProjectId.isEmpty = true ∧
    (createClaudeClient (runConfig inp4) =
      .error ("Vertex AI project ID is required when using Vertex AI".toList) ∧
    (run inp4 none (fun _ _ => .ok ch3) (fun _ => .ok ("x".toList))
        ("2026-10-12".toList)).promptsCompiled = 0 ∧
    (run inp4 none (fun _ _ => .ok ch3) (fun _ => .ok ("x".toList))
        ("2026-10-12".toList)).backendCalls = 0) :=
  ⟨by decide, by decide, by decide,
   C4_vertex_missing_project inp4 none (fun _ _ => .ok ch3)
     (fun _ => .ok ("x".toList)) ("2026-10-12".toList)
     (by decide) (by decide) (by decide)⟩

/-- Claim C5, counterexample: a line consisting of a canonical category
name with no heading markers at all (and likewise the plain markdown
header `## Added`) opens no section — the header regex demands `##`
followed by a literal backslash. -/
theorem C5_counterexample :
    parseSections ("Added".toList) = [] ∧
    parseSections ("Added".toList) ≠ [⟨SectionType.added, []⟩] := by
  decide

/-- Claim C5, amended: a trimmed line matching the actual header pattern
(`##`, a literal backslash, optionally letters `s`, then a canonical
category name, case-insensitively) opens a new section and closes the
previous one, which is pushed at that moment; a line matching nothing is
dropped while no section is open; and the final still-open section is
pushed only at end of input. -/
theorem C5_amended_header_sections :
    (∀ (cur : Option ChangelogSection) (secs : List ChangelogSection)
        (line : Str) (ty : SectionType),
      headerMatch (jsTrim line) = some ty →
      parseStep (cur, secs) line = (some ⟨ty, []⟩, secs ++ cur.toList)) ∧
    (∀ (secs : List ChangelogSection) (line : Str),
      headerMatch (jsTrim line) = none →
      parseStep (none, secs) line = (none, secs)) ∧
    (∀ content : Str,
      parseSections content =
        ((splitBN content).foldl parseStep (none, [])).2 ++
          ((splitBN content).foldl parseStep (none, [])).1.toList) := by
  refine ⟨?_, ?_, fun _ => rfl⟩
  · intro cur secs line ty h
    simp [parseStep, h]
  · intro secs line h
    simp [parseStep, h]

/-- Witness for the amended C5: the header `##\Added` closes an open
`fixed` section and opens an `added` one. -/
theorem C5_amended_witness :
    headerMatch (jsTrim ("##\\Added".toList)) = some SectionType.added ∧
    parseStep (some ⟨SectionType.fixed, []⟩, []) ("##\\Added".toList) =
      (some ⟨SectionType.added, []⟩, [⟨SectionType.fixed, []⟩]) :=
  ⟨by decide,
   C5_amended_header_sections.1 (some ⟨SectionType.fixed, []⟩) []
     ("##\\Added".toList) SectionType.added (by decide)⟩

/-- Claim C6, counterexample: the markdown formatter checks for `## ` as
a substring anywhere, not at line starts; on `a ## b` — a text with no
line beginning with a heading marker — it returns the text unchanged
instead of prepending the Unreleased header. -/
theorem C6_counterexample :
    formatAsMarkdown ("2026-10-12".toList) ("a ## b".toList) = "a ## b".toList ∧
    formatAsMarkdown ("2026-10-12".toList) ("a ## b".toList) ≠
      "## [Unreleased] - ".toList ++ "2026-10-12".toList ++ "\\n\\n".toList ++
        "a ## b".toList := by
  decide

/-- Claim C6, amended: the markdown formatter trims the raw text, and
prepends the Unreleased header with today's date exactly when the trimmed
text contains no occurrence of `## ` and no occurrence of `### ` anywhere
as a substring; otherwise the trimmed text is returned unchanged. -/
theorem C6_amended_markdown_header (today content : Str) :
    (containsSub ("## ".toList) (jsTrim content) = false →
      containsSub ("### ".toList) (jsTrim content) = false →
      formatAsMarkdown today content =
        "## [Unreleased] - ".toList ++ today ++ "\\n\\n".toList ++ jsTrim content) ∧
    (containsSub ("## ".toList) (jsTrim content) = true →
      formatAsMarkdown today content = jsTrim content) := by
  constructor
  · intro h1 h2
    have h1' : containsSub ['#', '#', ' '] (jsTrim content) = false := h1
    have h2' : containsSub ['#', '#', '#', ' '] (jsTrim content) = false := h2
    simp [formatAsMarkdown, h1', h2']
  · intro h1
    have h1' : containsSub ['#', '#', ' '] (jsTrim content) = true := h1
    simp [formatAsMarkdown, h1']

/-- Witness for the amended C6: flat prose gets the header; text with an
inline `## ` does not. -/
theorem C6_amended_witness :
    (containsSub ("## ".toList) (jsTrim ("plain prose".toList)) = false ∧
      containsSub ("### ".toList) (jsTrim ("plain prose".toList)) = false ∧
      formatAsMarkdown ("2026-10-12".toList) ("plain prose".toList) =
        "## [Unreleased] - ".toList ++ "2026-10-12".toList ++ "\\n\\n".toList ++
          jsTrim ("plain prose".toList)) ∧
    (containsSub ("## ".toList) (jsTrim ("x ## y".toList)) = true ∧
      formatAsMarkdown ("2026-10-12".toList) ("x ## y".toList) =
        jsTrim ("x ## y".toList)) :=
  ⟨⟨by decide, by decide,
    (C6_amended_markdown_header ("2026-10-12".toList) ("plain prose".toList)).1
      (by decide) (by decide)⟩,
   ⟨by decide,
    (C6_amended_markdown_header ("2026-10-12".toList) ("x ## y".toList)).2
      (by decide)⟩⟩

/-- Claim C7: the prompt carries at most 5 diff samples (the first at
most 5 files whose insertions plus deletions exceed 5, in order), each
sample's diff text is the first at most 1000 characters of the file's
diff, and when no file exceeds the threshold the sample section of
`buildPrompt` is empty — no header is emitted. -/
theorem C7_prompt_diff_limits (changes : AnalyzedChanges) :
    (significantFiles changes.files).length ≤ 5 ∧
    (∀ f ∈ significantFiles changes.files,
      diffSample f =
        "### ".toList ++ f.file ++ "\\n```diff\\n".toList ++
          f.diff.take 1000 ++ "\\n```".toList ∧
      (f.diff.take 1000).length ≤ 1000) ∧
    ((∀ f ∈ changes.files, f.insertions + f.deletions ≤ 5) →
      sampleSection changes.files = []) := by
  refine ⟨?_, ?_, ?_⟩
  · exact List.length_take_le 5 _
  · intro f _
    exact ⟨rfl, List.length_take_le 1000 _⟩
  · intro h
    have hfilter :
        changes.files.filter (fun f => 5 < f.insertions + f.deletions) = [] := by
      rw [List.filter_eq_nil_iff]
      intro f hf
      simpa using Nat.not_lt.mpr (h f hf)
    simp [sampleSection, significantDiffsStr, significantFiles, hfilter, joinSep]

/-- Witness for C7 at a change set below the sampling threshold. -/
theorem C7_witness :
    (significantFiles ch7.files).length ≤ 5 ∧
    (∀ f ∈ ch7.files, f.insertions + f.deletions ≤ 5) ∧
    sampleSection ch7.files = [] :=
  ⟨(C7_prompt_diff_limits ch7).1, by decide,
   (C7_prompt_diff_limits ch7).2.2 (by decide)⟩

/-- Claim C8: when both `useBedrock` and `useVertex` are set,
`createClaudeClient` returns the Bedrock variant without error, and the
result does not depend on `vertexProjectId` or `anthropicApiKey`. -/
theorem C8_bedrock_precedence (config : ClaudeClientConfig)
    (hb : config.useBedrock = true) (_hv : config.useVertex = true) :
    createClaudeClient config =
      .ok (.bedrock (jsOr config.bedrockRegion ("us-east-1".toList)) config.model) ∧
    (∀ pid key : Str,
      createClaudeClient
          { config with vertexProjectId := pid, anthropicApiKey := key } =
        createClaudeClient config) := by
  constructor
  · simp [createClaudeClient, hb]
  · intro pid key
    simp [createClaudeClient, hb]

/-- Witness for C8: the doubled-flag configuration yields the Bedrock
variant with the default region. -/
theorem C8_witness :
    cfg8.useBedrock = true ∧ cfg8.useVertex = true ∧
    createClaudeClient cfg8 =
      .ok (.bedrock (jsOr cfg8.bedrockRegion ("us-east-1".toList)) cfg8.model) ∧
    createClaudeClient
        { cfg8 with vertexProjectId := [], anthropicApiKey := [] } =
      createClaudeClient cfg8 :=
  ⟨rfl, rfl, (C8_bedrock_precedence cfg8 rfl rfl).1,
   (C8_bedrock_precedence cfg8 rfl rfl).2 [] []⟩

/-- Claim C9: on every successful run past the zero-commit check, the
`changes_count` output is the commit count rendered in decimal. -/
theorem C9_changes_count_commits (inp : Inputs) (latestTag : Option Str)
    (changesOf : Str → Str → Except Str AnalyzedChanges)
    (respond : Str → Except Str Str) (today : Str) (t : Str)
    (changes : AnalyzedChanges) (cv : ClientVariant) (content : Str)
    (htok : (resolvedGithubToken inp).isEmpty = false)
    (htag : resolvedFromTag inp latestTag = some t)
    (ht : t.isEmpty = false)
    (hch : changesOf t (resolvedToRef inp) = .ok changes)
    (hnz : changes.commits.isEmpty = false)
    (hcl : createClaudeClient (runConfig inp) = .ok cv)
    (hresp : respond (buildPrompt changes) = .ok content) :
    List.lookup ("changes_count".toList)
        (run inp latestTag changesOf respond today).outputs =
      some (decimalStr changes.commits.length) := by
  have k1 : (("changes_count".toList : Str) == "changelog".toList) = false := by decide
  have k2 : (("changes_count".toList : Str) == "changelog_file".toList) = false := by decide
  have k3 : (("changes_count".toList : Str) == "changes_count".toList) = true := by decide
  simp [run, htok, htag, ht, hch, hnz, hcl, hresp, List.lookup, k1, k2, k3]

/-- Witness for C9: a full successful one-commit run outputs
`changes_count = "1"`. -/
theorem C9_witness :
    ch9.commits.isEmpty = false ∧
    List.lookup ("changes_count".toList)
        (run inp9 none (fun _ _ => .ok ch9) (fun _ => .ok ("notes".toList))
          ("2026-10-12".toList)).outputs =
      some (decimalStr ch9.commits.length) :=
  ⟨rfl,
   C9_changes_count_commits inp9 none (fun _ _ => .ok ch9)
     (fun _ => .ok ("notes".toList)) ("2026-10-12".toList) ("v1".toList) ch9
     (.anthropic ("key".toList) ("claude-3-5-sonnet-20241022".toList))
     ("notes".toList) (by decide) (by decide) (by decide) rfl rfl rfl rfl⟩

/-- Claim C10, counterexample: the markdown-style header
`## Fixed critical bugs` (heading marker, whitespace, category name,
trailing text) opens no section, because the pattern requires a literal
backslash after `##`. -/
theorem C10_counterexample :
    parseSections ("## Fixed critical bugs".toList) = [] ∧
    parseSections ("## Fixed critical bugs".toList) ≠
      [⟨SectionType.fixed, []⟩] := by
  decide

/-- Claim C10, amended: the actual header pattern — `##`, a literal
backslash, optional `s` letters, a category name — is anchored only at
the start, so arbitrary trailing text still opens the section, and
repeated headers of one category yield separate (possibly empty)
sections. -/
theorem C10_amended_trailing_and_repeat :
    (∀ trailing : Str,
      headerMatch
          ('#' :: '#' :: '\\' :: 'F' :: 'i' :: 'x' :: 'e' :: 'd' :: trailing) =
        some SectionType.fixed) ∧
    parseSections ("##\\Fixed critical bugs\\n##\\Fixed more bugs".toList) =
      [⟨SectionType.fixed, []⟩, ⟨SectionType.fixed, []⟩] := by
  constructor
  · intro trailing
    simp +decide [headerMatch, matchSStarCat, matchCatAt, ciPrefOf]
  · decide

end Ccc
